import Mathlib

/-!
# Coffee-note client: NoteForm, LoginPage and App

A shallow embedding of the three React components of the client
(`client/src/components/NoteForm.js`, `client/src/Pages/Login.js`,
`client/src/components/App.js`) and the properties of the note-authoring
workflow, the credential form and the session gate.

Conventions of the embedding:

* identifiers are natural numbers; a JavaScript value that is either an
  identifier or the empty string `""` is an `Option Nat` (`none` is `""`);
* a JavaScript number is a `JSNumber`: `NaN`, the two infinities, or a finite
  value. Only comparisons are made on numbers, and those are exact on finite
  doubles, so a finite value is carried as a rational;
* a JavaScript string is carried as a `String`. Its `length` is the number
  of its UTF-16 code units, `jsLength`: a character of the basic plane is one
  unit, any other character is two;
* a callback invocation is an entry of an effect list, in call order.
-/

namespace CoffeeNotes

/-! ## JavaScript values -/

/-- A JavaScript number. -/
inductive JSNumber where
  | nan
  | negInf
  | posInf
  | fin (q : ℚ)
  deriving DecidableEq

namespace JSNumber

/-- Truthiness of a number: `0` and `NaN` are falsy. -/
def truthy : JSNumber → Bool
  | nan => false
  | negInf => true
  | posInf => true
  | fin q => decide (q ≠ 0)

/-- The comparison `value >= n` of JavaScript for a rational bound `n`. -/
def ge (x : JSNumber) (n : ℚ) : Bool :=
  match x with
  | nan => false
  | negInf => false
  | posInf => true
  | fin q => decide (n ≤ q)

/-- The comparison `value <= n` of JavaScript for a rational bound `n`. -/
def le (x : JSNumber) (n : ℚ) : Bool :=
  match x with
  | nan => false
  | negInf => true
  | posInf => false
  | fin q => decide (q ≤ n)

/-- A number that lies in the closed interval `[1, 5]`. -/
def InRange15 (x : JSNumber) : Prop :=
  ∃ q : ℚ, x = fin q ∧ 1 ≤ q ∧ q ≤ 5

/-- A number that is an integer of the closed interval `[1, 5]`. -/
def IsInteger15 (x : JSNumber) : Prop :=
  ∃ n : ℤ, x = fin (n : ℚ) ∧ 1 ≤ n ∧ n ≤ 5

end JSNumber

/-- The number of UTF-16 code units of a character. -/
def utf16Units (c : Char) : Nat :=
  if c.toNat < 65536 then 1 else 2

/-- The `length` of a JavaScript string: its number of UTF-16 code units. -/
def jsLength (s : String) : Nat :=
  (s.data.map utf16Units).sum

/-- A JSON value as it occurs in a note payload. -/
inductive JSValue where
  | num (x : JSNumber)
  | str (s : String)
  deriving DecidableEq

/-! ## Catalog and notes -/

/-- A cafe of the catalog (`cafe.id`, `cafe.name`, `cafe.location`). -/
structure Cafe where
  id : Nat
  name : String
  location : String
  deriving DecidableEq

/-- A coffee: `id`, `name`, the foreign key `cafe_id` (read at
`existingNote.coffee.cafe_id`) and the nested `cafe` object, which may be
absent (read with `cafe?.id`). -/
structure Coffee where
  id : Nat
  name : String
  cafe_id : Nat
  cafe : Option Cafe
  deriving DecidableEq

/-- A persisted note, as supplied in `existingNote` or returned by the server. -/
structure Note where
  id : Nat
  rating : JSNumber
  comment : String
  coffee_id : Nat
  coffee : Option Coffee
  deriving DecidableEq

/-- The catalog delivered by `useUser()`. -/
structure Catalog where
  cafes : List Cafe
  allCoffees : List Coffee

/-! ## NoteForm -/

/-- The Formik values of NoteForm: the draft. `coffee_id = none` is `""`. -/
structure Values where
  rating : JSNumber
  comment : String
  coffee_id : Option Nat
  deriving DecidableEq

/-- The props of NoteForm. `onNoteAdded` is always supplied; `onCancel` is
optional and only its presence matters. -/
structure NoteFormProps where
  existingNote : Option Note
  hasOnCancel : Bool

/-- The state of a NoteForm instance: `selectedCafeId` (`none` is `""`) and
the Formik values. -/
structure NoteFormState where
  selectedCafeId : Option Nat
  values : Values
  deriving DecidableEq

/-- The per-field messages produced by validation (`formik.errors`). -/
structure Errors where
  rating : Option String
  comment : Option String
  coffee_id : Option String
  deriving DecidableEq

/-- The `rating` rule: `yup.number().required().min(1).max(5)`. A `NaN` fails
the type check of `yup.number()`; the message of that failure is the
library's own and is abridged here. -/
def validateRating (x : JSNumber) : Option String :=
  match x with
  | JSNumber.nan => some "rating must be a number"
  | _ =>
    if !x.ge 1 then some "Rating must be at least 1"
    else if !x.le 5 then some "Rating must be at most 5"
    else none

/-- The `comment` rule: `yup.string().required().max(500)`. The empty string
is absent for `required`; `max(500)` tests `value.length <= 500`, so a comment
of exactly 500 units passes, whatever the wording of the message. -/
def validateComment (s : String) : Option String :=
  if jsLength s = 0 then some "Must enter a comment"
  else if 500 < jsLength s then some "Comment should be less than 500 characters"
  else none

/-- The `coffee_id` rule: `yup.number().required()`. -/
def validateCoffeeId (k : Option Nat) : Option String :=
  match k with
  | none => some "Must select a coffee"
  | some _ => none

/-- The validation schema applied to a draft. -/
def formSchema (v : Values) : Errors :=
  { rating := validateRating v.rating
    comment := validateComment v.comment
    coffee_id := validateCoffeeId v.coffee_id }

/-- No field has a message. -/
def Errors.isEmpty (e : Errors) : Bool :=
  e.rating.isNone && e.comment.isNone && e.coffee_id.isNone

/-- `isEditing = Boolean(existingNote)`. -/
def isEditing (p : NoteFormProps) : Bool :=
  p.existingNote.isSome

/-- A request handed to `fetch`. `body` is the object given to
`JSON.stringify`, key by key in order. -/
structure Request where
  url : String
  method : String
  contentType : String
  credentials : String
  body : List (String × JSValue)
  deriving DecidableEq

/-- The value of `coffee_id` in the payload: the identifier, or `""`. -/
def coffeeIdValue (k : Option Nat) : JSValue :=
  match k with
  | some n => JSValue.num (JSNumber.fin (n : ℚ))
  | none => JSValue.str ""

/-- The object `values` as serialised in the request body. -/
def payload (v : Values) : List (String × JSValue) :=
  [("rating", JSValue.num v.rating),
   ("comment", JSValue.str v.comment),
   ("coffee_id", coffeeIdValue v.coffee_id)]

/-- The request built by `onSubmit`. -/
def onSubmitRequest (p : NoteFormProps) (v : Values) : Request :=
  { url :=
      match p.existingNote with
      | some n => "/notes/" ++ toString n.id
      | none => "/notes"
    method := if isEditing p then "PATCH" else "POST"
    contentType := "application/json"
    credentials := "same-origin"
    body := payload v }

/-- The requests issued by `formik.handleSubmit`: the draft is validated, and
`onSubmit` runs only when no field has a message. -/
def handleSubmit (p : NoteFormProps) (s : NoteFormState) : List Request :=
  if (formSchema s.values).isEmpty then [onSubmitRequest p s.values] else []

/-- The Formik `initialValues`: seeded from `existingNote` with `||`
defaults, so a falsy field of the note falls back to the default. -/
def initialValues (p : NoteFormProps) : Values :=
  match p.existingNote with
  | some n =>
    { rating := if n.rating.truthy then n.rating else JSNumber.fin 3
      comment := n.comment
      coffee_id := if n.coffee_id = 0 then none else some n.coffee_id }
  | none =>
    { rating := JSNumber.fin 3
      comment := ""
      coffee_id := none }

/-- The initial `selectedCafeId`: `existingNote?.coffee?.cafe_id || ""`. -/
def initialSelectedCafeId (p : NoteFormProps) : Option Nat :=
  match p.existingNote with
  | some n =>
    match n.coffee with
    | some c => if c.cafe_id = 0 then none else some c.cafe_id
    | none => none
  | none => none

/-- The state of a NoteForm instance when it mounts. -/
def initialState (p : NoteFormProps) : NoteFormState :=
  { selectedCafeId := initialSelectedCafeId p
    values := initialValues p }

/-- The filter predicate `coffee.cafe?.id === selectedCafeId`: strict
equality, false when the coffee has no nested cafe or no cafe is selected. -/
def cafeMatches (c : Coffee) (selectedCafeId : Option Nat) : Bool :=
  match c.cafe, selectedCafeId with
  | some cafe, some k => cafe.id == k
  | _, _ => false

/-- The coffee options of the form. -/
def filteredCoffees (allCoffees : List Coffee) (selectedCafeId : Option Nat) :
    List Coffee :=
  allCoffees.filter (fun c => cafeMatches c selectedCafeId)

/-- The `onChange` handler of the cafe select, called with the chosen
cafe identifier. -/
def handleCafeChange (s : NoteFormState) (val : Nat) : NoteFormState :=
  { selectedCafeId := some val
    values := { s.values with coffee_id := none } }

/-- The `onChange` handler of the coffee select. -/
def handleCoffeeChange (s : NoteFormState) (val : Nat) : NoteFormState :=
  { s with values := { s.values with coffee_id := some val } }

/-- The coffee select is disabled while `!selectedCafeId`. -/
def coffeeSelectDisabled (s : NoteFormState) : Bool :=
  match s.selectedCafeId with
  | none => true
  | some k => k == 0

/-- `formik.resetForm()`: the values go back to `initialValues`;
`selectedCafeId` is React state of its own and is not touched. -/
def resetForm (p : NoteFormProps) (s : NoteFormState) : NoteFormState :=
  { s with values := initialValues p }

/-- How the `fetch` of a submission ends: the promise rejects, or a response
arrives with its `ok` flag and its JSON body (`none` when `response.json()`
rejects). -/
inductive SaveOutcome where
  | rejected
  | response (ok : Bool) (json : Option Note)

/-- The error that reaches the `catch` handler. -/
inductive SaveError where
  | fetchRejected
  | failedToSaveNote
  | jsonRejected
  deriving DecidableEq

/-- What NoteForm does when a submission settles, in call order. -/
inductive NoteFormEffect where
  | onNoteAdded (noteData : Note)
  | resetForm
  | onCancel
  | consoleError (error : SaveError)
  deriving DecidableEq

/-- The promise chain of `onSubmit` once the request has settled: the new
state and the calls made. -/
def settle (p : NoteFormProps) (s : NoteFormState) (o : SaveOutcome) :
    NoteFormState × List NoteFormEffect :=
  match o with
  | SaveOutcome.rejected => (s, [NoteFormEffect.consoleError SaveError.fetchRejected])
  | SaveOutcome.response false _ =>
    (s, [NoteFormEffect.consoleError SaveError.failedToSaveNote])
  | SaveOutcome.response true none =>
    (s, [NoteFormEffect.consoleError SaveError.jsonRejected])
  | SaveOutcome.response true (some noteData) =>
    (if isEditing p then s else resetForm p s,
     [NoteFormEffect.onNoteAdded noteData]
       ++ (if isEditing p then [] else [NoteFormEffect.resetForm])
       ++ (if p.hasOnCancel then [NoteFormEffect.onCancel] else []))

/-- A user action on the two selects of the form. -/
inductive FormEvent where
  | selectCafe (cafeId : Nat)
  | selectCoffee (coffeeId : Nat)
  deriving DecidableEq

/-- One user action. A cafe is picked among the options of the cafe select,
`cafes`; a coffee is picked among the options of the coffee select,
`filteredCoffees`, and only while that select is enabled. Any other pick is
not a step of the form. -/
def step (cat : Catalog) (s : NoteFormState) (e : FormEvent) : Option NoteFormState :=
  match e with
  | FormEvent.selectCafe c =>
    if c ∈ cat.cafes.map Cafe.id then some (handleCafeChange s c) else none
  | FormEvent.selectCoffee k =>
    if coffeeSelectDisabled s then none
    else if k ∈ (filteredCoffees cat.allCoffees s.selectedCafeId).map Coffee.id then
      some (handleCoffeeChange s k)
    else none

/-- A sequence of user actions from a state; `none` when one of them is not
a step. -/
def runEvents (cat : Catalog) (s : NoteFormState) : List FormEvent → Option NoteFormState
  | [] => some s
  | e :: es =>
    match step cat s e with
    | some s1 => runEvents cat s1 es
    | none => none

/-- The cascading-consistency property of a state: the coffee is unset or is
a catalog coffee whose `cafe_id` is the selected cafe. -/
def CascadeConsistent (cat : Catalog) (s : NoteFormState) : Prop :=
  s.values.coffee_id = none ∨
    ∃ c ∈ cat.allCoffees, s.values.coffee_id = some c.id ∧ s.selectedCafeId = some c.cafe_id

/-- A catalog in which the nested cafe of every coffee, when present, is the
cafe of its `cafe_id`. -/
def CafeRefsAgree (allCoffees : List Coffee) : Prop :=
  ∀ c ∈ allCoffees, ∀ cafe, c.cafe = some cafe → cafe.id = c.cafe_id

/-! ## LoginPage -/

/-- The `formData` state of LoginPage: the credentials. -/
structure Credentials where
  username : String
  password : String
  deriving DecidableEq

/-- The props of LoginPage. `onLogin`, `onSignup` and `onGitHubAuth` are
supplied; `onClearError` is optional and only its presence matters. -/
structure LoginProps where
  loading : Bool
  error : String
  hasOnClearError : Bool

/-- The state of a LoginPage instance. -/
structure LoginState where
  formData : Credentials
  showPassword : Bool
  isSignUp : Bool
  deriving DecidableEq

/-- A callback invoked by LoginPage. -/
inductive LoginEffect where
  | onLogin (formData : Credentials)
  | onSignup (formData : Credentials)
  | onGitHubAuth
  | onClearError
  deriving DecidableEq

/-- The state of LoginPage when it mounts. -/
def LoginState.initial : LoginState :=
  { formData := { username := "", password := "" }
    showPassword := false
    isSignUp := false }

/-- `handleSubmit`: one callback, chosen by the mode. -/
def LoginState.handleSubmit (s : LoginState) : List LoginEffect :=
  if s.isSignUp then [LoginEffect.onSignup s.formData] else [LoginEffect.onLogin s.formData]

/-- The submit button is disabled while a field is empty, and while
`loading` (a loading button does not react). -/
def submitButtonDisabled (p : LoginProps) (s : LoginState) : Bool :=
  (s.formData.username.length == 0 || s.formData.password.length == 0) || p.loading

/-- A click on the submit button: `handleSubmit` unless the button is
disabled. -/
def clickSubmit (p : LoginProps) (s : LoginState) : List LoginEffect :=
  if submitButtonDisabled p s then [] else s.handleSubmit

/-- The `onKeyDown` handler of the password field: `handleSubmit` when the key
is `Enter`. The field is disabled, and receives no key, while `loading`. -/
def passwordKeyDown (p : LoginProps) (s : LoginState) (key : String) : List LoginEffect :=
  if p.loading then []
  else if key = "Enter" then s.handleSubmit
  else []

/-- The `onClick` handler of the sign-in/sign-up link: the new state and the
calls made. -/
def toggleMode (p : LoginProps) (s : LoginState) : LoginState × List LoginEffect :=
  ({ s with isSignUp := !s.isSignUp, formData := { username := "", password := "" } },
   if p.hasOnClearError then [LoginEffect.onClearError] else [])

/-- The error banner shows the `error` prop when it is non-empty. The prop is
owned by the parent: a toggle does not change it. -/
def errorShown (p : LoginProps) : Option String :=
  if p.error.length = 0 then none else some p.error

/-! ## App -/

/-- The user record returned by `/check_session`. -/
structure User where
  id : Nat
  username : String
  deriving DecidableEq

/-- The state of App: `user`, initially `null`. -/
structure AppState where
  user : Option User
  deriving DecidableEq

/-- How the `/check_session` query ends: the promise rejects, or a response
arrives with its `ok` flag and its JSON body (`none` when `r.json()` rejects,
`some none` for a JSON `null`). -/
inductive SessionOutcome where
  | rejected
  | response (ok : Bool) (json : Option (Option User))

/-- What App renders. -/
inductive View where
  | login
  | mainShell
  deriving DecidableEq

/-- The result of evaluating the body of App once: a view, or the
`ReferenceError` thrown on reading an identifier that is not bound. -/
inductive Rendered where
  | referenceError (identifier : String)
  | view (v : View)
  deriving DecidableEq

/-- The identifiers bound in `App.js`: its imports and the function `App`
itself. There is no `handleLogin` among them. -/
def appScope : List String :=
  ["React", "useEffect", "useState", "Routes", "Route", "Login", "NavBar", "App"]

/-- The state of App before the query resolves. -/
def AppState.initial : AppState :=
  { user := none }

/-- The effect of the query on the state: `setUser(userData)` only for an
`ok` response whose JSON body was read. -/
def resolveSession (s : AppState) (o : SessionOutcome) : AppState :=
  match o with
  | SessionOutcome.response true (some userData) => { user := userData }
  | _ => s

/-- The body of App after its hooks: while `!user` it builds the login page
with `onLogin={handleLogin}`, which reads the identifier `handleLogin`;
otherwise it returns the main shell. -/
def render (s : AppState) : Rendered :=
  match s.user with
  | none =>
    if "handleLogin" ∈ appScope then Rendered.view View.login
    else Rendered.referenceError "handleLogin"
  | some _ => Rendered.view View.mainShell

/-- The `/check_session` query is issued by an effect of the first render,
which runs only once that render has returned a view. -/
def sessionQueried : Bool :=
  match render AppState.initial with
  | Rendered.view _ => true
  | Rendered.referenceError _ => false

/-- The states of a run of App: the state at mount and, when the query was
issued, the state once it has settled. -/
def appRun (o : SessionOutcome) : List AppState :=
  if sessionQueried then [AppState.initial, resolveSession AppState.initial o]
  else [AppState.initial]

/-- What App renders over a run, state by state. -/
def appViews (o : SessionOutcome) : List Rendered :=
  (appRun o).map render

/-! ## Scenario data -/

/-- The cafe of the scenario. -/
def blueBottle : Cafe :=
  { id := 1, name := "Blue Bottle", location := "Oakland" }

/-- The catalog of the scenario, with a second cafe and its coffee. -/
def scenarioCoffees : List Coffee :=
  [{ id := 10, name := "Ethiopia", cafe_id := 1, cafe := some blueBottle },
   { id := 11, name := "Kenya", cafe_id := 2,
     cafe := some { id := 2, name := "Sightglass", location := "Mission" } }]

/-- The draft of the scenario: cafe 1, coffee 10, rating 4. -/
def scenarioDraft : NoteFormState :=
  { selectedCafeId := some 1
    values := { rating := JSNumber.fin 4, comment := "Bright and fruity", coffee_id := some 10 } }

/-- A draft with the fractional rating 2.5. -/
def fractionalDraft : Values :=
  { rating := JSNumber.fin (5 / 2), comment := "Bright", coffee_id := some 10 }

/-- A draft whose comment is 251 times the character U+1F600, two code units
each. -/
def emojiDraft : Values :=
  { rating := JSNumber.fin 3, comment := ⟨List.replicate 251 (Char.ofNat 0x1F600)⟩,
    coffee_id := some 10 }

/-- A catalog whose one coffee names cafe 2 in `cafe_id` and carries cafe 1 as
nested cafe object. -/
def mismatchedCatalog : Catalog :=
  { cafes := [blueBottle]
    allCoffees := [{ id := 10, name := "Ethiopia", cafe_id := 2, cafe := some blueBottle }] }

/-- An existing note whose nested coffee object is missing. -/
def noteWithoutCoffee : Note :=
  { id := 7, rating := JSNumber.fin 4, comment := "Bright and fruity", coffee_id := 10,
    coffee := none }

/-! ## Lemmas on validation -/

theorem validateRating_eq_none_iff (x : JSNumber) :
    validateRating x = none ↔ x.InRange15 := by
  cases x with
  | nan => simp [validateRating, JSNumber.InRange15]
  | negInf => simp [validateRating, JSNumber.InRange15, JSNumber.ge]
  | posInf => simp [validateRating, JSNumber.InRange15, JSNumber.ge, JSNumber.le]
  | fin q =>
    simp only [validateRating, JSNumber.InRange15, JSNumber.ge, JSNumber.le]
    constructor
    · intro h
      by_cases h1 : (1 : ℚ) ≤ q
      · by_cases h5 : q ≤ 5
        · exact ⟨q, rfl, h1, h5⟩
        · simp [h1, h5] at h
      · simp [h1] at h
    · rintro ⟨r, hr, h1, h5⟩
      cases hr
      simp [h1, h5]

theorem jsLength_replicate (n : Nat) (c : Char) :
    jsLength ⟨List.replicate n c⟩ = n * utf16Units c := by
  simp [jsLength, List.map_replicate, List.sum_replicate]

theorem sum_utf16Units_eq_length (l : List Char) (h : ∀ c ∈ l, c.toNat < 65536) :
    (l.map utf16Units).sum = l.length := by
  induction l with
  | nil => rfl
  | cons a t ih =>
    have ha : utf16Units a = 1 := by simp [utf16Units, h a (List.mem_cons_self a t)]
    have ht := ih (fun c hc => h c (List.mem_cons_of_mem a hc))
    simp only [List.map_cons, List.sum_cons, List.length_cons, ha, ht]
    omega

theorem jsLength_eq_length (s : String) (h : ∀ c ∈ s.data, c.toNat < 65536) :
    jsLength s = s.length :=
  sum_utf16Units_eq_length s.data h

theorem jsLength_eq_zero_iff (s : String) : jsLength s = 0 ↔ s = "" := by
  cases s with
  | mk l =>
    cases l with
    | nil => simp [jsLength]
    | cons a t =>
      have ha : 0 < utf16Units a := by
        unfold utf16Units
        split <;> omega
      constructor
      · intro h
        simp only [jsLength, List.map_cons, List.sum_cons] at h
        omega
      · intro h
        have := congrArg String.data h
        simp at this

theorem validateComment_eq_none_iff (c : String) :
    validateComment c = none ↔ ¬ (jsLength c = 0 ∨ 500 < jsLength c) := by
  unfold validateComment
  by_cases h0 : jsLength c = 0
  · simp [h0]
  · by_cases h5 : 500 < jsLength c
    · simp [h0, h5]
    · simp [h0, h5]

theorem validateCoffeeId_eq_none_iff (k : Option Nat) :
    validateCoffeeId k = none ↔ k ≠ none := by
  cases k <;> simp [validateCoffeeId]

theorem formSchema_isEmpty_iff (v : Values) :
    (formSchema v).isEmpty = true ↔
      v.rating.InRange15 ∧ ¬ (jsLength v.comment = 0 ∨ 500 < jsLength v.comment) ∧
        v.coffee_id ≠ none := by
  simp only [Errors.isEmpty, formSchema, Bool.and_eq_true, Option.isNone_iff_eq_none,
    validateRating_eq_none_iff, validateComment_eq_none_iff, validateCoffeeId_eq_none_iff]
  tauto

theorem handleSubmit_eq_nil_iff (p : NoteFormProps) (s : NoteFormState) :
    handleSubmit p s = [] ↔ (formSchema s.values).isEmpty = false := by
  unfold handleSubmit
  cases h : (formSchema s.values).isEmpty <;> simp

/-! ## C1: validation -/

/-- C1, counterexample: the draft with rating 2.5, a non-empty comment and a
coffee has a rating that is not an integer of [1,5], yet the schema leaves no
message on it and the submission issues its request. And the draft with
rating 3, a coffee and a comment of 251 characters U+1F600 has a comment that
is neither empty nor longer than 500 characters, yet its 502 code units make
the schema reject it and the submission issues no request. -/
theorem fractionalDraft_accepted :
    (¬ fractionalDraft.rating.IsInteger15 ∧
      (formSchema fractionalDraft).isEmpty = true ∧
      handleSubmit { existingNote := none, hasOnCancel := false }
          { selectedCafeId := some 1, values := fractionalDraft } =
        [{ url := "/notes", method := "POST", contentType := "application/json",
           credentials := "same-origin",
           body := [("rating", JSValue.num (JSNumber.fin (5 / 2))),
                    ("comment", JSValue.str "Bright"),
                    ("coffee_id", JSValue.num (JSNumber.fin 10))] }]) ∧
      (emojiDraft.rating.IsInteger15 ∧ emojiDraft.coffee_id = some 10 ∧
        emojiDraft.comment.length = 251 ∧ jsLength emojiDraft.comment = 502 ∧
        (formSchema emojiDraft).isEmpty = false ∧
        handleSubmit { existingNote := none, hasOnCancel := false }
          { selectedCafeId := some 1, values := emojiDraft } = []) := by
  have hv : (formSchema fractionalDraft).isEmpty = true := by
    rw [formSchema_isEmpty_iff]
    refine ⟨⟨5 / 2, rfl, by norm_num, by norm_num⟩, ?_, by simp [fractionalDraft]⟩
    simp [fractionalDraft]
    decide
  have hu : utf16Units (Char.ofNat 0x1F600) = 2 := by decide
  have hl : jsLength emojiDraft.comment = 502 := by
    simp only [emojiDraft, jsLength_replicate, hu]
  have he : (formSchema emojiDraft).isEmpty = false := by
    rw [← Bool.not_eq_true, formSchema_isEmpty_iff, hl]
    simp
  refine ⟨⟨?_, hv, ?_⟩, ⟨3, rfl, by norm_num, by norm_num⟩, rfl, ?_, hl, he, ?_⟩
  · rintro ⟨n, hn, h1, h5⟩
    simp only [fractionalDraft, JSNumber.fin.injEq] at hn
    interval_cases n <;> norm_num at hn
  · simp only [handleSubmit, hv, if_true]
    simp [onSubmitRequest, isEditing, payload, fractionalDraft, coffeeIdValue]
  · exact List.length_replicate 251 _
  · rw [handleSubmit_eq_nil_iff]
    exact he

/-- C1, amended: the schema rejects a draft, and the submission then issues no
request, if and only if the rating is not a number of the closed interval
[1,5] (a fractional rating inside it is accepted), or the comment is empty or
its length in UTF-16 code units, the `length` of JavaScript, exceeds 500, or
the coffee is unset. A comment of 501 code units is rejected; one of 500 code
units is accepted when the rating is in range and a coffee is set. For a
comment of basic-plane characters the code units are the characters. -/
theorem formSchema_rejects_iff (p : NoteFormProps) (s : NoteFormState) :
    ((formSchema s.values).isEmpty = false ↔
        (¬ s.values.rating.InRange15 ∨ jsLength s.values.comment = 0 ∨
          500 < jsLength s.values.comment ∨ s.values.coffee_id = none)) ∧
      (handleSubmit p s = [] ↔
        (¬ s.values.rating.InRange15 ∨ jsLength s.values.comment = 0 ∨
          500 < jsLength s.values.comment ∨ s.values.coffee_id = none)) ∧
      (jsLength s.values.comment = 501 → handleSubmit p s = []) ∧
      (jsLength s.values.comment = 500 → s.values.rating.InRange15 →
        s.values.coffee_id ≠ none → handleSubmit p s = [onSubmitRequest p s.values]) ∧
      ((∀ c ∈ s.values.comment.data, c.toNat < 65536) →
        jsLength s.values.comment = s.values.comment.length) ∧
      (jsLength s.values.comment = 0 ↔ s.values.comment = "") := by
  have key : (formSchema s.values).isEmpty = false ↔
      (¬ s.values.rating.InRange15 ∨ jsLength s.values.comment = 0 ∨
        500 < jsLength s.values.comment ∨ s.values.coffee_id = none) := by
    rw [← Bool.not_eq_true, formSchema_isEmpty_iff]
    tauto
  refine ⟨key, (handleSubmit_eq_nil_iff p s).trans key, ?_, ?_,
    jsLength_eq_length s.values.comment, jsLength_eq_zero_iff s.values.comment⟩
  · intro h
    rw [handleSubmit_eq_nil_iff, key]
    right; right; left
    omega
  · intro h hr hk
    have hv : (formSchema s.values).isEmpty = true := by
      rw [formSchema_isEmpty_iff]
      exact ⟨hr, by omega, hk⟩
    simp [handleSubmit, hv]

/-- C1, instance: with rating 3 and coffee 10, the comment of 501 letters is
rejected and the comment of 500 letters is submitted. -/
theorem formSchema_rejects_iff_witness :
    handleSubmit { existingNote := none, hasOnCancel := false }
        { selectedCafeId := some 1,
          values := { rating := JSNumber.fin 3, comment := ⟨List.replicate 501 'a'⟩,
                      coffee_id := some 10 } } = [] ∧
      handleSubmit { existingNote := none, hasOnCancel := false }
        { selectedCafeId := some 1,
          values := { rating := JSNumber.fin 3, comment := ⟨List.replicate 500 'a'⟩,
                      coffee_id := some 10 } } =
        [onSubmitRequest { existingNote := none, hasOnCancel := false }
          { rating := JSNumber.fin 3, comment := ⟨List.replicate 500 'a'⟩,
            coffee_id := some 10 }] :=
  ⟨(formSchema_rejects_iff _ _).2.2.1
     ((jsLength_replicate 501 'a').trans (by decide)),
   (formSchema_rejects_iff _ _).2.2.2.1
     ((jsLength_replicate 500 'a').trans (by decide))
     ⟨3, rfl, by norm_num, by norm_num⟩ (by simp)⟩

/-! ## Lemmas on the coffee options -/

theorem cafeMatches_iff (c : Coffee) (k : Nat) :
    cafeMatches c (some k) = true ↔ c.cafe.map Cafe.id = some k := by
  unfold cafeMatches
  cases h : c.cafe <;> simp

theorem mem_filteredCoffees (allCoffees : List Coffee) (k : Nat) (c : Coffee) :
    c ∈ filteredCoffees allCoffees (some k) ↔
      c ∈ allCoffees ∧ c.cafe.map Cafe.id = some k := by
  simp [filteredCoffees, List.mem_filter, cafeMatches_iff]

theorem filteredCoffees_none (allCoffees : List Coffee) :
    filteredCoffees allCoffees none = [] := by
  unfold filteredCoffees
  rw [List.filter_eq_nil_iff]
  intro c _
  unfold cafeMatches
  cases c.cafe <;> simp

/-! ## C2: the coffee options -/

/-- C2, counterexample: a catalog coffee with `cafe_id` 1 that carries no
nested cafe object is not among the options shown for cafe 1. -/
theorem filteredCoffees_misses_coffee_without_cafe :
    ({ id := 10, name := "Ethiopia", cafe_id := 1, cafe := none } : Coffee).cafe_id
        = blueBottle.id ∧
      filteredCoffees [{ id := 10, name := "Ethiopia", cafe_id := 1, cafe := none }]
        (some blueBottle.id) = [] := by
  constructor
  · rfl
  · simp [filteredCoffees, cafeMatches]

/-- C2, amended: for every catalog and every selected cafe C, the options are
exactly the catalog coffees whose nested cafe object is present and has C's
id, in catalog order (a coffee without nested cafe is never shown); when the
nested cafe of every catalog coffee is present with the coffee's `cafe_id` as
id, these are exactly the coffees whose `cafe_id` is C's id. -/
theorem filteredCoffees_exact (allCoffees : List Coffee) (C : Cafe) :
    filteredCoffees allCoffees (some C.id) =
        allCoffees.filter (fun c => decide (c.cafe.map Cafe.id = some C.id)) ∧
      (filteredCoffees allCoffees (some C.id)).Sublist allCoffees ∧
      (∀ c, c ∈ filteredCoffees allCoffees (some C.id) ↔
        c ∈ allCoffees ∧ c.cafe.map Cafe.id = some C.id) ∧
      ((∀ c ∈ allCoffees, c.cafe.map Cafe.id = some c.cafe_id) →
        filteredCoffees allCoffees (some C.id) =
            allCoffees.filter (fun c => decide (c.cafe_id = C.id)) ∧
          ∀ c, c ∈ filteredCoffees allCoffees (some C.id) ↔
            c ∈ allCoffees ∧ c.cafe_id = C.id) := by
  have h1 : filteredCoffees allCoffees (some C.id) =
      allCoffees.filter (fun c => decide (c.cafe.map Cafe.id = some C.id)) := by
    unfold filteredCoffees
    apply List.filter_congr
    intro c _
    rw [Bool.eq_iff_iff, cafeMatches_iff]
    simp
  refine ⟨h1, List.filter_sublist _, mem_filteredCoffees allCoffees C.id, ?_⟩
  intro hagree
  have h2 : filteredCoffees allCoffees (some C.id) =
      allCoffees.filter (fun c => decide (c.cafe_id = C.id)) := by
    rw [h1]
    apply List.filter_congr
    intro c hc
    rw [hagree c hc]
    simp
  refine ⟨h2, ?_⟩
  intro c
  rw [h2]
  simp [List.mem_filter]

/-- C2, instance: in the scenario catalog the options for Blue Bottle are its
one coffee. -/
theorem filteredCoffees_exact_witness :
    filteredCoffees scenarioCoffees (some blueBottle.id) =
      scenarioCoffees.filter (fun c => decide (c.cafe_id = blueBottle.id)) :=
  ((filteredCoffees_exact scenarioCoffees blueBottle).2.2.2
    (by simp [scenarioCoffees, blueBottle])).1

/-! ## C3: the cafe select -/

/-- C3: for every state and every cafe identifier c, the cafe-selection
handler yields a state whose `selectedCafeId` is c and whose `coffee_id` is
unset, whatever coffee was selected before, a coffee of cafe c included; the
rating and the comment are kept. -/
theorem handleCafeChange_clears_coffee (s : NoteFormState) (c : Nat) :
    (handleCafeChange s c).selectedCafeId = some c ∧
      (handleCafeChange s c).values.coffee_id = none ∧
      (handleCafeChange s c).values.rating = s.values.rating ∧
      (handleCafeChange s c).values.comment = s.values.comment :=
  ⟨rfl, rfl, rfl, rfl⟩

/-! ## C4: the request of a submission -/

/-- C4: for every draft that passes validation, submitting issues exactly one
request; with an existing note it is a PATCH to /notes/<id of that note>,
otherwise a POST to /notes; its body has exactly the keys rating, comment and
coffee_id, with the values of the draft. -/
theorem handleSubmit_one_request (p : NoteFormProps) (s : NoteFormState)
    (hvalid : (formSchema s.values).isEmpty = true) :
    ∃ (r : Request) (k : Nat),
      handleSubmit p s = [r] ∧
      s.values.coffee_id = some k ∧
      r.body = [("rating", JSValue.num s.values.rating),
                ("comment", JSValue.str s.values.comment),
                ("coffee_id", JSValue.num (JSNumber.fin (k : ℚ)))] ∧
      r.body.map Prod.fst = ["rating", "comment", "coffee_id"] ∧
      (∀ n, p.existingNote = some n →
        r.method = "PATCH" ∧ r.url = "/notes/" ++ toString n.id) ∧
      (p.existingNote = none → r.method = "POST" ∧ r.url = "/notes") := by
  have hk : s.values.coffee_id ≠ none := ((formSchema_isEmpty_iff _).1 hvalid).2.2
  obtain ⟨k, hk⟩ := Option.ne_none_iff_exists'.1 hk
  refine ⟨onSubmitRequest p s.values, k, by simp [handleSubmit, hvalid], hk, ?_, ?_, ?_, ?_⟩
  · simp [onSubmitRequest, payload, hk, coffeeIdValue]
  · simp [onSubmitRequest, payload]
  · intro n hn
    simp [onSubmitRequest, isEditing, hn]
  · intro hn
    simp [onSubmitRequest, isEditing, hn]

theorem scenarioDraft_valid : (formSchema scenarioDraft.values).isEmpty = true := by
  rw [formSchema_isEmpty_iff]
  refine ⟨⟨4, rfl, by norm_num, by norm_num⟩, ?_, by simp [scenarioDraft]⟩
  simp [scenarioDraft]
  decide

/-- C4, instance: the scenario draft with no existing note is valid and
submitting it issues the single request POST /notes with body
{rating: 4, comment: "Bright and fruity", coffee_id: 10}. -/
theorem handleSubmit_one_request_witness :
    (formSchema scenarioDraft.values).isEmpty = true ∧
      handleSubmit { existingNote := none, hasOnCancel := false } scenarioDraft =
        [{ url := "/notes", method := "POST", contentType := "application/json",
           credentials := "same-origin",
           body := [("rating", JSValue.num (JSNumber.fin 4)),
                    ("comment", JSValue.str "Bright and fruity"),
                    ("coffee_id", JSValue.num (JSNumber.fin 10))] }] := by
  refine ⟨scenarioDraft_valid, ?_⟩
  obtain ⟨r, k, hr, hk, hbody, -, -, hpost⟩ :=
    handleSubmit_one_request { existingNote := none, hasOnCancel := false } scenarioDraft
      scenarioDraft_valid
  have hk10 : k = 10 := by
    simp [scenarioDraft] at hk
    omega
  subst hk10
  obtain ⟨hm, hu⟩ := hpost rfl
  rw [hr]
  have hc : r.contentType = "application/json" ∧ r.credentials = "same-origin" := by
    have h0 : handleSubmit { existingNote := none, hasOnCancel := false } scenarioDraft =
        [onSubmitRequest { existingNote := none, hasOnCancel := false } scenarioDraft.values] := by
      simp [handleSubmit, scenarioDraft_valid]
    rw [h0] at hr
    have := List.head_eq_of_cons_eq hr
    subst this
    exact ⟨rfl, rfl⟩
  cases r
  simp_all [scenarioDraft]

/-! ## C5 and C6: the outcome of a submission -/

/-- C5: when the save succeeds with note n, the calls made are `onNoteAdded n`
first, then the reset of the form exactly when the form is a create, then
`onCancel` exactly when it was supplied; after a create the draft is
rating 3, empty comment and no coffee, after an update the state is the one
before; `selectedCafeId` is kept in both cases. -/
theorem settle_success (p : NoteFormProps) (s : NoteFormState) (n : Note) :
    (settle p s (SaveOutcome.response true (some n))).2 =
        [NoteFormEffect.onNoteAdded n]
          ++ (if p.existingNote = none then [NoteFormEffect.resetForm] else [])
          ++ (if p.hasOnCancel = true then [NoteFormEffect.onCancel] else []) ∧
      (NoteFormEffect.onCancel ∈ (settle p s (SaveOutcome.response true (some n))).2 ↔
        p.hasOnCancel = true) ∧
      (p.existingNote = none →
        (settle p s (SaveOutcome.response true (some n))).1.values =
          { rating := JSNumber.fin 3, comment := "", coffee_id := none }) ∧
      (p.existingNote ≠ none →
        (settle p s (SaveOutcome.response true (some n))).1 = s) ∧
      (settle p s (SaveOutcome.response true (some n))).1.selectedCafeId = s.selectedCafeId := by
  cases he : p.existingNote with
  | none =>
    cases hc : p.hasOnCancel <;>
      simp [settle, isEditing, he, hc, resetForm, initialValues]
  | some m =>
    cases hc : p.hasOnCancel <;>
      simp [settle, isEditing, he, hc]

/-- C6: when the save fails, by a rejected request or by a response that is
not ok, the state after it is the state before it (rating, comment,
coffee_id and selectedCafeId), and the only call made is the logging of the
error: neither `onNoteAdded` nor `onCancel` is invoked. -/
theorem settle_failure (p : NoteFormProps) (s : NoteFormState) (json : Option Note) :
    settle p s SaveOutcome.rejected =
        (s, [NoteFormEffect.consoleError SaveError.fetchRejected]) ∧
      settle p s (SaveOutcome.response false json) =
        (s, [NoteFormEffect.consoleError SaveError.failedToSaveNote]) ∧
      (∀ o, o = SaveOutcome.rejected ∨ o = SaveOutcome.response false json →
        (settle p s o).1 = s ∧
        NoteFormEffect.onCancel ∉ (settle p s o).2 ∧
        ∀ n, NoteFormEffect.onNoteAdded n ∉ (settle p s o).2) := by
  refine ⟨rfl, rfl, ?_⟩
  rintro o (rfl | rfl) <;> simp [settle]

/-! ## C7 and C8: LoginPage -/

/-- C7, failing input: on a fresh sign-in form, with both fields empty, the
Enter key in the password field invokes `onLogin` with the empty credentials,
while a click on the submit button invokes nothing. -/
theorem passwordKeyDown_submits_empty_credentials :
    passwordKeyDown { loading := false, error := "", hasOnClearError := false }
        LoginState.initial "Enter" =
        [LoginEffect.onLogin { username := "", password := "" }] ∧
      clickSubmit { loading := false, error := "", hasOnClearError := false }
        LoginState.initial = [] := by
  constructor
  · simp [passwordKeyDown, LoginState.handleSubmit, LoginState.initial]
  · simp [clickSubmit, submitButtonDisabled, LoginState.initial]

/-- C8, counterexample: without an `onClearError` prop, toggling the mode
invokes no callback, and the error passed by the parent is still shown. -/
theorem toggleMode_without_onClearError :
    (toggleMode { loading := false, error := "Invalid credentials", hasOnClearError := false }
        LoginState.initial).2 = [] ∧
      errorShown { loading := false, error := "Invalid credentials", hasOnClearError := false }
        = some "Invalid credentials" := by
  constructor
  · simp [toggleMode]
  · simp [errorShown]
    decide

/-- C8, amended: toggling flips the mode flag and sets username and password
to the empty string; it invokes `onClearError` when that prop was supplied and
invokes nothing otherwise; toggling twice gives the original mode back with
both fields empty. -/
theorem toggleMode_resets (p : LoginProps) (s : LoginState) :
    (toggleMode p s).1.isSignUp = !s.isSignUp ∧
      (toggleMode p s).1.formData = { username := "", password := "" } ∧
      (toggleMode p s).1.showPassword = s.showPassword ∧
      (toggleMode p s).2 = (if p.hasOnClearError = true then [LoginEffect.onClearError] else []) ∧
      (toggleMode p (toggleMode p s).1).1.isSignUp = s.isSignUp ∧
      (toggleMode p (toggleMode p s).1).1.formData = { username := "", password := "" } := by
  refine ⟨rfl, rfl, rfl, rfl, ?_, rfl⟩
  simp [toggleMode]

/-! ## C9: App -/

/-- C9, failing input: for every outcome the identity query could have, the
first render of App, with `user` still `null`, reads the unbound identifier
`handleLogin` and throws; the query is never issued, the run has the mount
state only, and neither the login page nor the main shell is rendered. With
a user in the state the body would return the main shell. -/
theorem app_first_render_throws (o : SessionOutcome) :
    render AppState.initial = Rendered.referenceError "handleLogin" ∧
      sessionQueried = false ∧
      appRun o = [AppState.initial] ∧
      appViews o = [Rendered.referenceError "handleLogin"] ∧
      Rendered.view View.login ∉ appViews o ∧
      Rendered.view View.mainShell ∉ appViews o ∧
      ∀ u, render { user := some u } = Rendered.view View.mainShell := by
  have hr : render AppState.initial = Rendered.referenceError "handleLogin" := by
    simp [render, AppState.initial, appScope]
  have hq : sessionQueried = false := by
    simp [sessionQueried, hr]
  have hrun : appRun o = [AppState.initial] := by
    simp [appRun, hq]
  have hviews : appViews o = [Rendered.referenceError "handleLogin"] := by
    simp [appViews, hrun, hr]
  refine ⟨hr, hq, hrun, hviews, ?_, ?_, ?_⟩
  · simp [hviews]
  · simp [hviews]
  · intro u
    rfl

/-! ## C10: cascading consistency -/

theorem step_cascadeConsistent (cat : Catalog) (s t : NoteFormState) (e : FormEvent)
    (hcat : CafeRefsAgree cat.allCoffees) (hstep : step cat s e = some t) :
    CascadeConsistent cat t := by
  cases e with
  | selectCafe c =>
    simp only [step] at hstep
    split at hstep
    · simp only [Option.some.injEq] at hstep
      subst hstep
      exact Or.inl rfl
    · cases hstep
  | selectCoffee k =>
    simp only [step] at hstep
    split at hstep
    · cases hstep
    split at hstep
    · next hmem =>
      simp only [Option.some.injEq] at hstep
      subst hstep
      obtain ⟨c, hc, rfl⟩ := List.mem_map.1 hmem
      cases hsel : s.selectedCafeId with
      | none => simp [hsel, filteredCoffees_none] at hc
      | some j =>
        rw [hsel, mem_filteredCoffees] at hc
        obtain ⟨hall, hcafe⟩ := hc
        obtain ⟨cafe, hcafe1, hcafe2⟩ := Option.map_eq_some'.1 hcafe
        have hj : c.cafe_id = j := by rw [← hcat c hall cafe hcafe1, hcafe2]
        refine Or.inr ⟨c, hall, rfl, ?_⟩
        simp [handleCoffeeChange, hsel, hj]
    · cases hstep

theorem runEvents_cascadeConsistent (cat : Catalog) (hcat : CafeRefsAgree cat.allCoffees)
    (evs : List FormEvent) :
    ∀ s t : NoteFormState, CascadeConsistent cat s → runEvents cat s evs = some t →
      CascadeConsistent cat t := by
  induction evs with
  | nil =>
    intro s t hs hrun
    simp only [runEvents, Option.some.injEq] at hrun
    exact hrun ▸ hs
  | cons e es ih =>
    intro s t _ hrun
    simp only [runEvents] at hrun
    cases hstep : step cat s e with
    | none => simp [hstep] at hrun
    | some s1 =>
      rw [hstep] at hrun
      exact ih s1 t (step_cascadeConsistent cat s s1 e hcat hstep) hrun

theorem initialState_cascadeConsistent (cat : Catalog) (p : NoteFormProps)
    (hp : p.existingNote = none) : CascadeConsistent cat (initialState p) := by
  left
  simp [initialState, initialValues, hp]

/-- C10, counterexample: seeded from an existing note with coffee 10 and no
nested coffee object, the form starts with coffee 10 set and no cafe
selected, so its initial state is not cascade-consistent, here even for the
scenario catalog, which holds coffee 10. And from the defaults, in a catalog
whose coffee 10 names cafe 2 in `cafe_id` and carries cafe 1 as nested cafe,
selecting cafe 1 and then the coffee 10 on offer reaches a state that is not
cascade-consistent. -/
theorem cascadeConsistent_violations :
    ((initialState { existingNote := some noteWithoutCoffee, hasOnCancel := false }).values.coffee_id
        = some 10 ∧
      (initialState { existingNote := some noteWithoutCoffee, hasOnCancel := false }).selectedCafeId
        = none ∧
      ¬ CascadeConsistent { cafes := [blueBottle], allCoffees := scenarioCoffees }
        (initialState { existingNote := some noteWithoutCoffee, hasOnCancel := false })) ∧
      (runEvents mismatchedCatalog (initialState { existingNote := none, hasOnCancel := false })
          [FormEvent.selectCafe 1, FormEvent.selectCoffee 10] =
        some { selectedCafeId := some 1,
               values := { rating := JSNumber.fin 3, comment := "", coffee_id := some 10 } } ∧
      ¬ CascadeConsistent mismatchedCatalog
        { selectedCafeId := some 1,
          values := { rating := JSNumber.fin 3, comment := "", coffee_id := some 10 } }) := by
  refine ⟨⟨?_, ?_, ?_⟩, ?_, ?_⟩
  · simp [initialState, initialValues, noteWithoutCoffee]
  · simp [initialState, initialSelectedCafeId, noteWithoutCoffee]
  · simp [CascadeConsistent, initialState, initialValues, initialSelectedCafeId,
      noteWithoutCoffee]
  · simp [runEvents, step, handleCafeChange, handleCoffeeChange, filteredCoffees, cafeMatches,
      coffeeSelectDisabled, mismatchedCatalog, blueBottle, initialState, initialValues,
      initialSelectedCafeId]
  · simp [CascadeConsistent, mismatchedCatalog]

/-- C10, amended: in a catalog whose nested cafe objects agree with the
`cafe_id` of their coffee, every state reached from the initial state by cafe
selections and by coffee selections among the options on offer has its
`coffee_id` unset or equal to the id of a catalog coffee whose `cafe_id` is
the selected cafe, provided the initial state is so (it is when no existing
note is supplied) or at least one selection has been made. -/
theorem noteForm_cascade_invariant (cat : Catalog) (p : NoteFormProps)
    (evs : List FormEvent) (t : NoteFormState)
    (hcat : CafeRefsAgree cat.allCoffees)
    (hinit : p.existingNote = none ∨ CascadeConsistent cat (initialState p) ∨ evs ≠ [])
    (hrun : runEvents cat (initialState p) evs = some t) :
    CascadeConsistent cat t := by
  cases evs with
  | nil =>
    simp only [runEvents, Option.some.injEq] at hrun
    subst hrun
    rcases hinit with h | h | h
    · exact initialState_cascadeConsistent cat p h
    · exact h
    · exact absurd rfl h
  | cons e es =>
    simp only [runEvents] at hrun
    cases hstep : step cat (initialState p) e with
    | none => simp [hstep] at hrun
    | some s1 =>
      rw [hstep] at hrun
      exact runEvents_cascadeConsistent cat hcat es s1 t
        (step_cascadeConsistent cat _ s1 e hcat hstep) hrun

theorem scenarioCoffees_agree : CafeRefsAgree scenarioCoffees := by
  intro c hc cafe hcafe
  simp only [scenarioCoffees, List.mem_cons, List.mem_singleton, List.not_mem_nil,
    or_false] at hc
  rcases hc with rfl | rfl
  · simp only [Option.some.injEq] at hcafe
    subst hcafe
    rfl
  · simp only [Option.some.injEq] at hcafe
    subst hcafe
    rfl

theorem scenarioRun :
    runEvents { cafes := [blueBottle], allCoffees := scenarioCoffees }
        (initialState { existingNote := none, hasOnCancel := false })
        [FormEvent.selectCafe 1, FormEvent.selectCoffee 10] =
      some { selectedCafeId := some 1,
             values := { rating := JSNumber.fin 3, comment := "", coffee_id := some 10 } } := by
  simp [runEvents, step, handleCafeChange, handleCoffeeChange, filteredCoffees, cafeMatches,
    coffeeSelectDisabled, scenarioCoffees, blueBottle, initialState, initialValues,
    initialSelectedCafeId]

/-- C10, instance: in the scenario catalog, from the defaults, selecting cafe
1 and then coffee 10 reaches a cascade-consistent state with coffee 10 set. -/
theorem noteForm_cascade_invariant_witness :
    CafeRefsAgree scenarioCoffees ∧
      runEvents { cafes := [blueBottle], allCoffees := scenarioCoffees }
          (initialState { existingNote := none, hasOnCancel := false })
          [FormEvent.selectCafe 1, FormEvent.selectCoffee 10] =
        some { selectedCafeId := some 1,
               values := { rating := JSNumber.fin 3, comment := "", coffee_id := some 10 } } ∧
      CascadeConsistent { cafes := [blueBottle], allCoffees := scenarioCoffees }
        { selectedCafeId := some 1,
          values := { rating := JSNumber.fin 3, comment := "", coffee_id := some 10 } } :=
  ⟨scenarioCoffees_agree, scenarioRun,
   noteForm_cascade_invariant { cafes := [blueBottle], allCoffees := scenarioCoffees }
     { existingNote := none, hasOnCancel := false }
     [FormEvent.selectCafe 1, FormEvent.selectCoffee 10] _
     scenarioCoffees_agree (Or.inl rfl) scenarioRun⟩

end CoffeeNotes
